import Mathlib

/-!
# Inventix AI backend — verification of the trust-calibration pipeline

Shallow embedding of the evidence-grounded trust-calibration core of the
`inventix_ai` backend (`backend/calibration_service.py`,
`backend/feedback_service.py`, `backend/audit_service.py`,
`backend/compliance_service.py`, `backend/config.py`, `backend/models.py`
and the novelty-risk endpoint of `backend/main.py`).

Modelling conventions:
* SQLAlchemy tables become Lean structures; the database session becomes an
  explicit `Db` record of lists, one list per table, in insertion
  (`created_at`) order.
* Python floats become `ℚ`; `round(x, 3)` becomes `round3` (round half to
  even, as Python's `round` does); `int(x)` on a non-negative value becomes
  the floor.
* Wall-clock timestamps and the SHA-256 IP hashing of
  `feedback_service.hash_ip` are elided: no claim depends on them, and list
  position already records insertion order.
* `json.dumps` of a note list is elided: notes are kept as `List String`.
-/

namespace Inventix

/-! ## Enumerations (`backend/models.py`) -/

/-- `models.ProjectType` (models.py lines 32-36). -/
inductive ProjectType
  | RESEARCH
  | PATENT
  | MIXED
deriving DecidableEq, Repr

/-- `models.NoveltyRiskLevel` (models.py lines 148-153). -/
inductive NoveltyRiskLevel
  | GREEN
  | YELLOW
  | RED
  | UNKNOWN
deriving DecidableEq, Repr

/-- `models.FeedbackType` (models.py lines 562-569). -/
inductive FeedbackType
  | HELPFUL
  | NOT_HELPFUL
  | AGREE
  | DISAGREE
  | NEEDS_REVISION
  | NEEDS_EXPERT
deriving DecidableEq, Repr

/-- `models.OutputType` (models.py lines 572-579). -/
inductive OutputType
  | SIMILARITY
  | SUMMARY
  | DRAFT
  | CLAIM
  | RECOMMENDATION
  | COMPARATIVE
deriving DecidableEq, Repr

/-- `models.ConfidenceLevel` (models.py lines 582-586). -/
inductive ConfidenceLevel
  | LOW
  | MEDIUM
  | HIGH
deriving DecidableEq, Repr

/-- `models.ActionType` (models.py lines 665-678). -/
inductive ActionType
  | PROJECT_CREATED
  | FILE_UPLOADED
  | TEXT_EXTRACTED
  | EVIDENCE_RETRIEVED
  | SIMILARITY_COMPUTED
  | NOVELTY_CLASSIFIED
  | DRAFT_OPTIMIZED
  | CLAIMS_GENERATED
  | FEEDBACK_SUBMITTED
  | CALIBRATION_UPDATED
  | COMPLIANCE_CHECK
  | SYSTEM_STARTUP
deriving DecidableEq, Repr

/-- `FeedbackType(value)` enum coercion: `some` on the six member strings,
`none` (Python `ValueError`) otherwise. -/
def FeedbackType.ofString? : String → Option FeedbackType
  | "HELPFUL" => some .HELPFUL
  | "NOT_HELPFUL" => some .NOT_HELPFUL
  | "AGREE" => some .AGREE
  | "DISAGREE" => some .DISAGREE
  | "NEEDS_REVISION" => some .NEEDS_REVISION
  | "NEEDS_EXPERT" => some .NEEDS_EXPERT
  | _ => none

/-- `OutputType(value)` enum coercion. -/
def OutputType.ofString? : String → Option OutputType
  | "SIMILARITY" => some .SIMILARITY
  | "SUMMARY" => some .SUMMARY
  | "DRAFT" => some .DRAFT
  | "CLAIM" => some .CLAIM
  | "RECOMMENDATION" => some .RECOMMENDATION
  | "COMPARATIVE" => some .COMPARATIVE
  | _ => none

/-- `ActionType(value)` enum coercion (used by `audit_service.log_action`). -/
def ActionType.ofString? : String → Option ActionType
  | "PROJECT_CREATED" => some .PROJECT_CREATED
  | "FILE_UPLOADED" => some .FILE_UPLOADED
  | "TEXT_EXTRACTED" => some .TEXT_EXTRACTED
  | "EVIDENCE_RETRIEVED" => some .EVIDENCE_RETRIEVED
  | "SIMILARITY_COMPUTED" => some .SIMILARITY_COMPUTED
  | "NOVELTY_CLASSIFIED" => some .NOVELTY_CLASSIFIED
  | "DRAFT_OPTIMIZED" => some .DRAFT_OPTIMIZED
  | "CLAIMS_GENERATED" => some .CLAIMS_GENERATED
  | "FEEDBACK_SUBMITTED" => some .FEEDBACK_SUBMITTED
  | "CALIBRATION_UPDATED" => some .CALIBRATION_UPDATED
  | "COMPLIANCE_CHECK" => some .COMPLIANCE_CHECK
  | "SYSTEM_STARTUP" => some .SYSTEM_STARTUP
  | _ => none

/-! ## Table rows (`backend/models.py`) -/

/-- `models.Project` (models.py lines 39-52); only the columns the core
reads: `id`, `type` and the free-text `domain` column (line 50). -/
structure Project where
  id : Nat
  type : ProjectType
  domain : Option String
deriving DecidableEq, Repr

/-- `models.CandidateEvidence` (models.py lines 120-139); only the columns
the calibration and similarity code reads. -/
structure CandidateEvidence where
  id : Nat
  project_id : Nat
  source_type : String
deriving DecidableEq, Repr

/-- `models.SimilarityScore` (models.py lines 202-215).
`score` is the integer `score * 10000` column. -/
structure SimilarityScore where
  id : Nat
  project_id : Nat
  evidence_id : Nat
  score : Int
  evidence_type : String
deriving DecidableEq, Repr

/-- `SimilarityScore.score_float`: the stored integer scaled back to the
unit interval, as read throughout `main.py`. -/
def SimilarityScore.score_float (s : SimilarityScore) : ℚ :=
  (s.score : ℚ) / 10000

/-- `models.AnalysisState` (models.py lines 230-293), restricted to the
columns the novelty and calibration paths touch; the narrative `notes`
column (formatted float text) is elided. -/
structure AnalysisState where
  project_id : Nat
  novelty_risk : NoveltyRiskLevel
  max_similarity_score : Option Int
  top_evidence_id : Option Nat
deriving DecidableEq, Repr

/-- `models.UserFeedback` (models.py lines 589-616). Timestamps and the
hashed IP are elided; list position is insertion order. -/
structure UserFeedback where
  id : Nat
  output_id : String
  output_type : OutputType
  project_id : Nat
  user_id : Option String
  user_role : Option String
  feedback_type : FeedbackType
  comment : Option String
deriving DecidableEq, Repr

/-- `models.ConfidenceCalibration` (models.py lines 624-659). -/
structure ConfidenceCalibration where
  id : Nat
  project_id : Nat
  confidence_level : ConfidenceLevel
  human_review_recommended : Bool
  disagreement_flag : Bool
  calibration_notes : List String
  total_feedback_count : Nat
  disagreement_count : Int
  agreement_count : Nat
  evidence_count : Nat
deriving DecidableEq, Repr

/-- `models.AuditLog` (models.py lines 681-712). -/
structure AuditLog where
  id : Nat
  action_type : ActionType
  entity_type : String
  entity_id : Option Int
  user_id : String
  metadata_json : Option String
  compliance_mode_active : Bool
deriving DecidableEq, Repr

/-- `config.Settings` (config.py), restricted to the flags and thresholds
the core reads. Defaults are the ones in `config.py`. -/
structure Settings where
  research_red_threshold : ℚ := 80/100
  research_yellow_threshold : ℚ := 50/100
  patent_red_threshold : ℚ := 75/100
  patent_yellow_threshold : ℚ := 45/100
  compliance_mode : Bool := false
  audit_logs_enabled : Bool := true
deriving Repr

/-- The database session: one list per table, in insertion order. -/
structure Db where
  projects : List Project := []
  evidences : List CandidateEvidence := []
  analysisStates : List AnalysisState := []
  scores : List SimilarityScore := []
  feedbacks : List UserFeedback := []
  calibrations : List ConfidenceCalibration := []
  auditLogs : List AuditLog := []
deriving Repr

/-! ## Numeric helpers -/

/-- Python's `round` ties to even.  Rounds a rational to the nearest
integer, half to even. -/
def roundHalfEven (q : ℚ) : ℤ :=
  let f := ⌊q⌋
  let r := q - (f : ℚ)
  if r < 1/2 then f
  else if 1/2 < r then f + 1
  else if Even f then f else f + 1

/-- Python's `round(x, 3)` on a rational. -/
def round3 (q : ℚ) : ℚ :=
  (roundHalfEven (q * 1000) : ℚ) / 1000

/-! ## Calibration service (`backend/calibration_service.py`) -/

/-- calibration_service.py line 33. -/
def EVIDENCE_COUNT_LOW_THRESHOLD : Nat := 3

/-- calibration_service.py line 34. -/
def EVIDENCE_COUNT_MEDIUM_THRESHOLD : Nat := 10

/-- calibration_service.py line 35 (30%+). -/
def DISAGREEMENT_HIGH_THRESHOLD : ℚ := 30/100

/-- calibration_service.py line 36. -/
def SIMILARITY_CLARITY_THRESHOLD : ℚ := 20/100

/-- calibration_service.py line 39: "Contexts that never get HIGH
confidence".  Declared in the source but never read by any function. -/
def RESTRICTED_CONTEXTS : List String := ["PATENT", "LEGAL", "MEDICAL", "FINANCIAL"]

/-- Calibration note strings (calibration_service.py lines 56-63). -/
def NOTE_HIGH_DISAGREEMENT : String :=
  "High disagreement detected on this analysis — exercise caution"

def NOTE_LOW_EVIDENCE : String :=
  "Evidence coverage limited — conclusions may be weak"

def NOTE_HUMAN_REVIEW : String :=
  "Human review strongly recommended before acting"

def NOTE_PATENT_CONTEXT : String :=
  "Patent/legal context — professional review essential"

def NOTE_NOVELTY_RED : String :=
  "High overlap with prior art detected — claims at risk"

def NOTE_LOW_SIMILARITY_CLARITY : String :=
  "Similarity scores lack clear differentiation — interpretation uncertain"

def NOTE_NO_FEEDBACK : String :=
  "No human feedback yet — confidence based on system metrics only"

def NOTE_MIXED_SIGNALS : String :=
  "Mixed evidence signals — additional review advisable"

/-- `calibration_service.CalibrationResult` (lines 44-51).  The Python
`metrics` dict is flattened into the fields the service writes into it;
in the project-not-found branch the dict is empty, which is modelled by
the `metrics.get(key, default)` defaults the only reader
(`get_or_create_calibration`) would observe. -/
structure CalibrationResult where
  confidence_level : ConfidenceLevel
  human_review_recommended : Bool
  disagreement_flag : Bool
  calibration_notes : List String
  metrics_evidence_count : Nat
  metrics_novelty_risk : NoveltyRiskLevel
  metrics_total_feedback : Nat
  metrics_disagreement_rate : ℚ
  metrics_similarity_clarity : ℚ
deriving DecidableEq, Repr

/-- calibration_service.py line 97: the restricted-context test inside
`calculate_confidence` — `project.type == ProjectType.PATENT`. -/
def is_restricted_context (project : Project) : Bool :=
  project.type == ProjectType.PATENT

/-- The ordered rule chain of `calculate_confidence`
(calibration_service.py lines 160-196), factored over the four quantities
it reads.  Returns the confidence level together with the note the firing
branch appends. -/
def applyCalibrationRules (novelty_risk : NoveltyRiskLevel) (evidence_count : Nat)
    (disagreement_rate : ℚ) (isRestricted : Bool) :
    ConfidenceLevel × List String :=
  let high_disagreement : Bool := decide (disagreement_rate > DISAGREEMENT_HIGH_THRESHOLD)
  -- Rule 1: RED novelty + low evidence → LOW
  if (novelty_risk == NoveltyRiskLevel.RED) &&
      decide (evidence_count < EVIDENCE_COUNT_LOW_THRESHOLD) then
    (ConfidenceLevel.LOW, [NOTE_HUMAN_REVIEW])
  -- Rule 2: High disagreement → LOW
  else if high_disagreement then
    (ConfidenceLevel.LOW, [NOTE_HUMAN_REVIEW])
  -- Rule 3: Restricted context → Never HIGH
  else if isRestricted then
    if decide (evidence_count ≥ EVIDENCE_COUNT_MEDIUM_THRESHOLD) &&
        decide (disagreement_rate < 1/10) then
      (ConfidenceLevel.MEDIUM, [])
    else
      (ConfidenceLevel.LOW, [NOTE_HUMAN_REVIEW])
  -- Rule 4: Strong evidence + low disagreement → MEDIUM
  else if decide (evidence_count ≥ EVIDENCE_COUNT_MEDIUM_THRESHOLD) &&
      decide (disagreement_rate < 1/10) then
    (ConfidenceLevel.MEDIUM, [])
  -- Rule 5: Moderate evidence → LOW-MEDIUM
  else if decide (evidence_count ≥ EVIDENCE_COUNT_LOW_THRESHOLD) then
    if decide (disagreement_rate < 2/10) then
      (ConfidenceLevel.MEDIUM, [])
    else
      (ConfidenceLevel.LOW, [NOTE_MIXED_SIGNALS])
  -- Default: Conservative LOW
  else
    (ConfidenceLevel.LOW, [NOTE_HUMAN_REVIEW])

/-- The feedback types `calculate_confidence` counts as disagreement
(calibration_service.py line 135). -/
def calibDisagreeTypes (t : FeedbackType) : Bool :=
  t == FeedbackType.DISAGREE || t == FeedbackType.NOT_HELPFUL ||
    t == FeedbackType.NEEDS_REVISION

/-- Descending insertion by the integer `score` column, modelling
`order_by(SimilarityScore.score.desc())`. -/
def insertScoreDesc (s : SimilarityScore) : List SimilarityScore → List SimilarityScore
  | [] => [s]
  | t :: ts => if t.score ≤ s.score then s :: t :: ts else t :: insertScoreDesc s ts

/-- `order_by(SimilarityScore.score.desc())` over a list of rows. -/
def sortScoresDesc : List SimilarityScore → List SimilarityScore
  | [] => []
  | s :: ss => insertScoreDesc s (sortScoresDesc ss)

/-- `evidence_count` of `calculate_confidence` (lines 102-104). -/
def projEvidenceCount (db : Db) (project_id : Nat) : Nat :=
  (db.evidences.filter (fun e => e.project_id == project_id)).length

/-- `novelty_risk` of `calculate_confidence` (lines 111-117): the stored
analysis state's risk, `UNKNOWN` when the project has no analysis state. -/
def projNoveltyRisk (db : Db) (project_id : Nat) : NoveltyRiskLevel :=
  match db.analysisStates.find? (fun a => a.project_id == project_id) with
  | some a => a.novelty_risk
  | none => NoveltyRiskLevel.UNKNOWN

/-- `feedback_list` of `calculate_confidence` (lines 124-126). -/
def projFeedback (db : Db) (project_id : Nat) : List UserFeedback :=
  db.feedbacks.filter (fun f => f.project_id == project_id)

/-- `disagreement_rate` of `calculate_confidence` (lines 131-137):
`{DISAGREE, NOT_HELPFUL, NEEDS_REVISION}` records over all of the
project's feedback; `0.0` when there is no feedback. -/
def projDisagreementRate (db : Db) (project_id : Nat) : ℚ :=
  let feedback_list := projFeedback db project_id
  if feedback_list.length == 0 then 0
  else ((feedback_list.filter (fun f => calibDisagreeTypes f.feedback_type)).length : ℚ)
    / (feedback_list.length : ℚ)

/-- `similarity_clarity` of `calculate_confidence` (lines 146-155):
gap between the two highest stored scores, `0.0` with fewer than two. -/
def projSimilarityClarity (db : Db) (project_id : Nat) : ℚ :=
  match (sortScoresDesc (db.scores.filter
      (fun s => s.project_id == project_id))).take 5 with
  | top :: second :: _ => |top.score_float - second.score_float|
  | _ => 0

/-- `calibration_service.calculate_confidence` (lines 68-212). -/
def calculate_confidence (db : Db) (project_id : Nat) : CalibrationResult :=
  match db.projects.find? (fun p => p.id == project_id) with
  | none =>
      { confidence_level := ConfidenceLevel.LOW
        human_review_recommended := true
        disagreement_flag := false
        calibration_notes := ["Project not found"]
        metrics_evidence_count := 0
        metrics_novelty_risk := NoveltyRiskLevel.UNKNOWN
        metrics_total_feedback := 0
        metrics_disagreement_rate := 0
        metrics_similarity_clarity := 0 }
  | some project =>
      let isRestricted := is_restricted_context project
      let notes0 : List String := if isRestricted then [NOTE_PATENT_CONTEXT] else []
      let evidence_count := projEvidenceCount db project_id
      let notes1 := notes0 ++
        (if evidence_count < EVIDENCE_COUNT_LOW_THRESHOLD then [NOTE_LOW_EVIDENCE] else [])
      let novelty_risk := projNoveltyRisk db project_id
      let notes2 := notes1 ++
        (if novelty_risk == NoveltyRiskLevel.RED then [NOTE_NOVELTY_RED] else [])
      let total_feedback := (projFeedback db project_id).length
      let notes3 := notes2 ++ (if total_feedback == 0 then [NOTE_NO_FEEDBACK] else [])
      let disagreement_rate := projDisagreementRate db project_id
      let high_disagreement : Bool := decide (disagreement_rate > DISAGREEMENT_HIGH_THRESHOLD)
      let notes4 := notes3 ++ (if high_disagreement then [NOTE_HIGH_DISAGREEMENT] else [])
      let similarity_clarity := projSimilarityClarity db project_id
      let notes5 := notes4 ++
        (if 0 < similarity_clarity ∧ similarity_clarity < SIMILARITY_CLARITY_THRESHOLD
          then [NOTE_LOW_SIMILARITY_CLARITY] else [])
      let ruled := applyCalibrationRules novelty_risk evidence_count disagreement_rate isRestricted
      let confidence_level := ruled.1
      let human_review_recommended :=
        confidence_level == ConfidenceLevel.LOW || isRestricted ||
          high_disagreement || novelty_risk == NoveltyRiskLevel.RED
      { confidence_level := confidence_level
        human_review_recommended := human_review_recommended
        disagreement_flag := high_disagreement
        calibration_notes := notes5 ++ ruled.2
        metrics_evidence_count := evidence_count
        metrics_novelty_risk := novelty_risk
        metrics_total_feedback := total_feedback
        metrics_disagreement_rate := round3 disagreement_rate
        metrics_similarity_clarity := round3 similarity_clarity }

/-- `calibration_service.get_or_create_calibration` (lines 215-254).
Always recomputes, then upserts the stored `ConfidenceCalibration` row.
Returns the result together with the updated session. -/
def get_or_create_calibration (db : Db) (project_id : Nat) :
    CalibrationResult × Db :=
  let result := calculate_confidence db project_id
  let existing := db.calibrations.find? (fun c => c.project_id == project_id)
  match existing with
  | some _ =>
      (result,
        { db with calibrations := db.calibrations.map (fun c =>
            if c.project_id == project_id then
              { c with
                confidence_level := result.confidence_level
                human_review_recommended := result.human_review_recommended
                disagreement_flag := result.disagreement_flag
                calibration_notes := result.calibration_notes
                total_feedback_count := result.metrics_total_feedback
                disagreement_count :=
                  ⌊result.metrics_disagreement_rate * (result.metrics_total_feedback : ℚ)⌋
                evidence_count := result.metrics_evidence_count }
            else c) })
  | none =>
      (result,
        { db with calibrations := db.calibrations ++
            [{ id := db.calibrations.length + 1
               project_id := project_id
               confidence_level := result.confidence_level
               human_review_recommended := result.human_review_recommended
               disagreement_flag := result.disagreement_flag
               calibration_notes := result.calibration_notes
               total_feedback_count := result.metrics_total_feedback
               disagreement_count := 0
               agreement_count := 0
               evidence_count := result.metrics_evidence_count }] })

/-! ## Feedback service (`backend/feedback_service.py`) -/

/-- `feedback_service.FeedbackSubmission` (lines 29-37); the timestamp
string is elided. -/
structure FeedbackSubmission where
  success : Bool
  feedback_id : Nat
  output_id : String
  feedback_type : String
  message : String
deriving DecidableEq, Repr

/-- `feedback_service.FeedbackSummary` (lines 40-52). -/
structure FeedbackSummary where
  output_id : String
  total_count : Nat
  helpful_count : Nat
  not_helpful_count : Nat
  agree_count : Nat
  disagree_count : Nat
  needs_revision_count : Nat
  needs_expert_count : Nat
  disagreement_rate : ℚ
  comments : List String
deriving DecidableEq, Repr

/-- `feedback_service.ProjectFeedbackStats` (lines 55-63); the
`recent_feedback` dictionaries are kept as the records themselves. -/
structure ProjectFeedbackStats where
  project_id : Nat
  total_feedback : Nat
  total_outputs_rated : Nat
  overall_disagreement_rate : ℚ
  outputs_needing_review : Nat
  recent_feedback : List UserFeedback
deriving DecidableEq, Repr

/-- `feedback_service.calculate_disagreement_rate` (lines 75-89). -/
def calculate_disagreement_rate (disagree_count agree_count
    not_helpful_count helpful_count : Nat) : ℚ :=
  let total_positive := agree_count + helpful_count
  let total_negative := disagree_count + not_helpful_count
  let total := total_positive + total_negative
  if total == 0 then 0
  else round3 ((total_negative : ℚ) / (total : ℚ))

/-- `feedback_service.submit_feedback` (lines 94-172): validates the two
enum strings; on success appends exactly one `UserFeedback` row.  Returns
the submission outcome together with the updated session. -/
def submit_feedback (db : Db) (output_id : String) (output_type : String)
    (project_id : Nat) (feedback_type : String)
    (user_id : Option String := none) (user_role : Option String := none)
    (comment : Option String := none) : FeedbackSubmission × Db :=
  match FeedbackType.ofString? feedback_type with
  | none =>
      ({ success := false, feedback_id := 0, output_id := output_id
         feedback_type := feedback_type
         message := "Invalid feedback type: " ++ feedback_type }, db)
  | some fb_type =>
      match OutputType.ofString? output_type with
      | none =>
          ({ success := false, feedback_id := 0, output_id := output_id
             feedback_type := feedback_type
             message := "Invalid output type: " ++ output_type }, db)
      | some out_type =>
          let fid := db.feedbacks.length + 1
          let record : UserFeedback :=
            { id := fid, output_id := output_id, output_type := out_type
              project_id := project_id, user_id := user_id
              user_role := user_role, feedback_type := fb_type
              comment := comment }
          ({ success := true, feedback_id := fid, output_id := output_id
             feedback_type := feedback_type
             message :=
               "Feedback recorded successfully. Thank you for helping improve the system." },
           { db with feedbacks := db.feedbacks ++ [record] })

/-- `feedback_service.get_feedback_for_output` (lines 175-208).  The query
orders by `created_at` descending, i.e. reverse insertion order. -/
def get_feedback_for_output (db : Db) (output_id : String) : FeedbackSummary :=
  let feedback_list := (db.feedbacks.filter (fun f => f.output_id == output_id)).reverse
  let countType (t : FeedbackType) : Nat :=
    (feedback_list.filter (fun f => f.feedback_type == t)).length
  let helpful := countType FeedbackType.HELPFUL
  let not_helpful := countType FeedbackType.NOT_HELPFUL
  let agree := countType FeedbackType.AGREE
  let disagree := countType FeedbackType.DISAGREE
  let needs_revision := countType FeedbackType.NEEDS_REVISION
  let needs_expert := countType FeedbackType.NEEDS_EXPERT
  let comments := feedback_list.filterMap (fun f => f.comment)
  { output_id := output_id
    total_count := feedback_list.length
    helpful_count := helpful
    not_helpful_count := not_helpful
    agree_count := agree
    disagree_count := disagree
    needs_revision_count := needs_revision
    needs_expert_count := needs_expert
    disagreement_rate := calculate_disagreement_rate disagree agree not_helpful helpful
    comments := comments.take 10 }

/-- `feedback_service.get_project_feedback` (lines 211-257). -/
def get_project_feedback (db : Db) (project_id : Nat) : ProjectFeedbackStats :=
  let feedback_list := (db.feedbacks.filter (fun f => f.project_id == project_id)).reverse
  let unique_outputs := (feedback_list.map (fun f => f.output_id)).dedup
  let disagreements :=
    (feedback_list.filter (fun f => calibDisagreeTypes f.feedback_type)).length
  let disagreement_rate : ℚ :=
    if feedback_list.isEmpty then 0
    else (disagreements : ℚ) / (feedback_list.length : ℚ)
  let needs_review :=
    (feedback_list.filter (fun f => f.feedback_type == FeedbackType.NEEDS_EXPERT)).length
  { project_id := project_id
    total_feedback := feedback_list.length
    total_outputs_rated := unique_outputs.length
    overall_disagreement_rate := round3 disagreement_rate
    outputs_needing_review := needs_review
    recent_feedback := feedback_list.take 10 }

/-! ## Compliance service (`backend/compliance_service.py`) -/

/-- The error values compliance-gated code can raise.  The source file
both defines a `ComplianceViolation` exception class (line 20) and raises
FastAPI's `HTTPException` (lines 59-62); the embedding keeps both. -/
inductive ComplianceError
  | httpException (status_code : Nat) (detail : String)
  | complianceViolation (message : String)
deriving DecidableEq, Repr

/-- `true` exactly on an error raised as the `ComplianceViolation` class. -/
def raisedComplianceViolation : Except ComplianceError Unit → Bool
  | Except.error (ComplianceError.complianceViolation _) => true
  | _ => false

/-- `compliance_service.RESTRICTED_FEATURES` (lines 26-39):
feature name ↦ (allowed_in_compliance, reason). -/
def RESTRICTED_FEATURES : List (String × Bool × String) :=
  [("PATENT_CLAIM_GENERATION", (false,
      "Patent claim generation is disabled in Compliance Mode to prevent unauthorized legal practice.")),
   ("DRAFT_OPTIMIZATION_CREATIVE", (false,
      "Creative rewriting is disabled. Only clarity/grammar fixes allowed.")),
   ("HIGH_RISK_NOVELTY_CHECK", (true,
      "Novelty checking is allowed but creates permanent audit records."))]

/-- `compliance_service.is_compliance_mode_active` (lines 42-44). -/
def is_compliance_mode_active (settings : Settings) : Bool :=
  settings.compliance_mode

/-- `compliance_service.validate_feature_access` (lines 47-62). -/
def validate_feature_access (settings : Settings) (feature_name : String) :
    Except ComplianceError Unit :=
  if !is_compliance_mode_active settings then Except.ok ()
  else
    match RESTRICTED_FEATURES.find? (fun r => r.1 == feature_name) with
    | some rule =>
        if !rule.2.1 then
          Except.error (ComplianceError.httpException 403
            ("Compliance Restriction: " ++ rule.2.2))
        else Except.ok ()
    | none => Except.ok ()

/-! ## Audit service (`backend/audit_service.py`) -/

/-- `audit_service.log_action` (lines 26-83).  Returns the boolean the
Python function returns, together with the updated session. -/
def log_action (settings : Settings) (db : Db) (action_type : String)
    (entity_type : String) (entity_id : Option Int)
    (user_id : Option String := none) (metadata : Option String := none) :
    Bool × Db :=
  if !settings.audit_logs_enabled then (true, db)
  else
    match ActionType.ofString? action_type with
    | none => (false, db)
    | some a_type =>
        (true,
         { db with auditLogs := db.auditLogs ++
            [{ id := db.auditLogs.length + 1
               action_type := a_type
               entity_type := entity_type
               entity_id := entity_id
               user_id := user_id.getD "system"
               metadata_json := metadata
               compliance_mode_active := settings.compliance_mode }] })

/-- `audit_service.get_recent_system_logs` (lines 120-125): newest first,
limited. -/
def get_recent_system_logs (db : Db) (limit : Nat := 50) : List AuditLog :=
  db.auditLogs.reverse.take limit

/-- `audit_service.get_project_audit_trail` (lines 86-117): project-tagged
entries, newest first, limited. -/
def get_project_audit_trail (db : Db) (project_id : Nat) (limit : Nat := 100) :
    List AuditLog :=
  ((db.auditLogs.filter (fun l =>
      l.entity_type == "Project" && l.entity_id == some (project_id : Int))).reverse).take limit

/-! ## Novelty risk (`backend/main.py`, novelty endpoint) -/

/-- Modelled from the spec: `classify_novelty_risk` lives in
`similarity_engine.py`, which is not among the provided backend sources
(only its callers in `main.py` are).  The spec fixes it as
`classify(max_score, evidence_kind) → {GREEN, YELLOW, RED}` with research
thresholds yellow ≥ 0.50 / red ≥ 0.80 and the stricter patent thresholds
yellow ≥ 0.45 / red ≥ 0.75, both boundaries compared with `≥`; the
endpoint docstring in `main.py` (lines 1284-1288) states the same
thresholds.  Threshold values are the `Settings` fields of `config.py`. -/
def classify_novelty_risk (settings : Settings) (score : ℚ)
    (evidence_type : String) : NoveltyRiskLevel :=
  if evidence_type == "patent" then
    if score ≥ settings.patent_red_threshold then NoveltyRiskLevel.RED
    else if score ≥ settings.patent_yellow_threshold then NoveltyRiskLevel.YELLOW
    else NoveltyRiskLevel.GREEN
  else
    if score ≥ settings.research_red_threshold then NoveltyRiskLevel.RED
    else if score ≥ settings.research_yellow_threshold then NoveltyRiskLevel.YELLOW
    else NoveltyRiskLevel.GREEN

/-- Python's `max(scores, key=lambda s: s.score)`: the first row attaining
the maximal integer score. -/
def maxByScore (head : SimilarityScore) (rest : List SimilarityScore) :
    SimilarityScore :=
  rest.foldl (fun best s => if best.score < s.score then s else best) head

/-- Maximum of the float scores, `max(all_scores_float)`. -/
def maxScoreFloat (head : SimilarityScore) (rest : List SimilarityScore) : ℚ :=
  rest.foldl (fun m s => max m s.score_float) head.score_float

/-- Maximum float score of a (possibly empty) kind-filtered list:
`max([s.score_float for s in kind_scores]) if kind_scores else None`. -/
def maxScoreFloat? : List SimilarityScore → Option ℚ
  | [] => none
  | h :: t => some (maxScoreFloat h t)

/-- The body of `main.get_novelty_risk` (main.py lines 1280-1398), from
the similarity-score query on; the formatted narrative `notes` string is
elided (float string formatting). -/
structure NoveltyRiskResponse where
  project_id : Nat
  novelty_risk : NoveltyRiskLevel
  max_similarity_score : Option ℚ
  top_match_evidence : Option CandidateEvidence
  research_risk : NoveltyRiskLevel
  research_max_score : Option ℚ
  research_matches : Nat
  patent_risk : NoveltyRiskLevel
  patent_max_score : Option ℚ
  patent_matches : Nat
  total_evidence_compared : Nat
deriving DecidableEq, Repr

/-- `main.get_novelty_risk` (lines 1280-1398), response computation.  The
analysis-state write it also performs is `noveltyStateUpdate` below. -/
def get_novelty_risk (settings : Settings) (db : Db) (project_id : Nat) :
    NoveltyRiskResponse :=
  let scores := db.scores.filter (fun s => s.project_id == project_id)
  match scores with
  | [] =>
      { project_id := project_id
        novelty_risk := NoveltyRiskLevel.UNKNOWN
        max_similarity_score := none
        top_match_evidence := none
        research_risk := NoveltyRiskLevel.UNKNOWN
        research_max_score := none
        research_matches := 0
        patent_risk := NoveltyRiskLevel.UNKNOWN
        patent_max_score := none
        patent_matches := 0
        total_evidence_compared := 0 }
  | h :: t =>
      let research_scores := scores.filter (fun s => s.evidence_type == "paper")
      let patent_scores := scores.filter (fun s => s.evidence_type == "patent")
      let research_max := maxScoreFloat? research_scores
      let patent_max := maxScoreFloat? patent_scores
      let research_risk := match research_max with
        | some m => classify_novelty_risk settings m "paper"
        | none => NoveltyRiskLevel.UNKNOWN
      let patent_risk := match patent_max with
        | some m => classify_novelty_risk settings m "patent"
        | none => NoveltyRiskLevel.UNKNOWN
      let max_score := maxScoreFloat h t
      let top_score := maxByScore h t
      let top_evidence := db.evidences.find? (fun e => e.id == top_score.evidence_id)
      let overall_risk := classify_novelty_risk settings max_score top_score.evidence_type
      { project_id := project_id
        novelty_risk := overall_risk
        max_similarity_score := some max_score
        top_match_evidence := top_evidence
        research_risk := research_risk
        research_max_score := research_max
        research_matches := research_scores.length
        patent_risk := patent_risk
        patent_max_score := patent_max
        patent_matches := patent_scores.length
        total_evidence_compared := scores.length }

/-- The analysis-state write of `main.get_novelty_risk` (lines 1305-1308
for the empty case, 1377-1383 otherwise); the narrative `notes` column is
elided. -/
def noveltyStateUpdate (settings : Settings) (db : Db) (project_id : Nat) : Db :=
  let resp := get_novelty_risk settings db project_id
  { db with analysisStates := db.analysisStates.map (fun a =>
      if a.project_id == project_id then
        match resp.max_similarity_score with
        | none => { a with novelty_risk := NoveltyRiskLevel.UNKNOWN }
        | some m =>
            { a with
              novelty_risk := resp.novelty_risk
              max_similarity_score := some ⌊m * 10000⌋
              top_evidence_id := resp.top_match_evidence.map (fun e => e.id) }
      else a) }

/-- The per-evidence score upsert of `main.compute_similarity`
(lines 1238-1254): overwrite the existing `(project, evidence)` row's
score, or append a new row.  The cosine value itself comes from stored
embeddings via `similarity_engine.cosine_similarity` (external to these
claims) and is carried as the `score` argument. -/
def upsertSimilarityScore (db : Db) (project_id evidence_id : Nat)
    (score : Int) (evidence_type : String) : Db :=
  match db.scores.find? (fun s =>
      s.project_id == project_id && s.evidence_id == evidence_id) with
  | some _ =>
      { db with scores := db.scores.map (fun s =>
          if s.project_id == project_id && s.evidence_id == evidence_id then
            { s with score := score }
          else s) }
  | none =>
      { db with scores := db.scores ++
          [{ id := db.scores.length + 1
             project_id := project_id
             evidence_id := evidence_id
             score := score
             evidence_type := evidence_type }] }

/-! ## The public operations as a transition system

The business operations named by the audit append-only property, each
with the database effect its source code performs. -/

/-- One public business operation. -/
inductive Op
  /-- `main.create_project` (lines 301-320): insert a project, then
  `log_action("PROJECT_CREATED", ...)`. -/
  | createProject (ptype : ProjectType) (domain : Option String)
  /-- `feedback_service.submit_feedback`. -/
  | submitFeedback (output_id output_type : String) (project_id : Nat)
      (feedback_type : String) (comment : Option String)
  /-- One per-evidence score upsert of `main.compute_similarity`. -/
  | computeSimilarity (project_id evidence_id : Nat) (score : Int)
      (evidence_type : String)
  /-- `main.get_novelty_risk`: recomputes and stores the risk verdict. -/
  | classifyNovelty (project_id : Nat)
  /-- `calibration_service.get_or_create_calibration`. -/
  | calibrate (project_id : Nat)
  /-- `compliance_service.validate_feature_access` (read-only). -/
  | checkFeature (feature_name : String)
  /-- A direct `audit_service.log_action` append. -/
  | auditAppend (action_type entity_type : String) (entity_id : Option Int)
      (user_id metadata : Option String)
deriving Repr

/-- The database effect of one operation. -/
def stepOp (settings : Settings) (db : Db) : Op → Db
  | Op.createProject ptype domain =>
      let pid := db.projects.length + 1
      let db1 := { db with projects := db.projects ++
        [{ id := pid, type := ptype, domain := domain }] }
      (log_action settings db1 "PROJECT_CREATED" "Project" (some (pid : Int))).2
  | Op.submitFeedback output_id output_type project_id feedback_type comment =>
      (submit_feedback db output_id output_type project_id feedback_type
        none none comment).2
  | Op.computeSimilarity project_id evidence_id score evidence_type =>
      upsertSimilarityScore db project_id evidence_id score evidence_type
  | Op.classifyNovelty project_id => noveltyStateUpdate settings db project_id
  | Op.calibrate project_id => (get_or_create_calibration db project_id).2
  | Op.checkFeature _ => db
  | Op.auditAppend action_type entity_type entity_id user_id metadata =>
      (log_action settings db action_type entity_type entity_id user_id metadata).2

/-- Run a sequence of operations. -/
def runOps (settings : Settings) (db : Db) (ops : List Op) : Db :=
  ops.foldl (stepOp settings) db

/-! ## Specification-side definitions

Definitions transcribed from the spec's words, for comparison against the
embedded code. -/

/-- First-matching-rule evaluation of an ordered decision list: the first
pair whose condition holds determines the output; later rules never
override it; the default applies when no rule matches. -/
def firstMatch : List (Bool × ConfidenceLevel) → ConfidenceLevel → ConfidenceLevel
  | [], default => default
  | (cond, out) :: rest, default => if cond then out else firstMatch rest default

/-- The confidence decision list exactly as the spec words it
(spec §4.4, rules 1-5; rule 6 is the `LOW` default of `firstMatch`). -/
def specDecisionList (novelty_risk : NoveltyRiskLevel) (evidence_count : Nat)
    (disagreement_rate : ℚ) (restricted : Bool) : List (Bool × ConfidenceLevel) :=
  [((novelty_risk == NoveltyRiskLevel.RED) && decide (evidence_count < 3),
      ConfidenceLevel.LOW),
   (decide (disagreement_rate > 30/100), ConfidenceLevel.LOW),
   (restricted,
      if decide (evidence_count ≥ 10) && decide (disagreement_rate < 1/10)
        then ConfidenceLevel.MEDIUM else ConfidenceLevel.LOW),
   (decide (evidence_count ≥ 10) && decide (disagreement_rate < 1/10),
      ConfidenceLevel.MEDIUM),
   (decide (evidence_count ≥ 3),
      if decide (disagreement_rate < 2/10)
        then ConfidenceLevel.MEDIUM else ConfidenceLevel.LOW)]

/-- Severity rank of a risk label under the spec's order
RED > YELLOW > GREEN > UNKNOWN. -/
def riskSeverity : NoveltyRiskLevel → Nat
  | NoveltyRiskLevel.RED => 3
  | NoveltyRiskLevel.YELLOW => 2
  | NoveltyRiskLevel.GREEN => 1
  | NoveltyRiskLevel.UNKNOWN => 0

/-- The higher-severity of two risk labels (spec §4.2's project-level
combination rule). -/
def riskMaxSeverity (a b : NoveltyRiskLevel) : NoveltyRiskLevel :=
  if riskSeverity a < riskSeverity b then b else a

/-- `n` successive `submit_feedback` calls with kind `DISAGREE` for one
output. -/
def submitDisagreeN (db : Db) (output_id output_type : String)
    (project_id : Nat) : Nat → Db
  | 0 => db
  | n + 1 =>
      (submit_feedback (submitDisagreeN db output_id output_type project_id n)
        output_id output_type project_id "DISAGREE").2

/-! ## Concrete stores used by witnesses and counterexamples -/

/-- A store with one research project whose only feedback is a single
`NEEDS_REVISION` record. -/
def dbNeedsRevisionOnly : Db :=
  { projects := [⟨1, ProjectType.RESEARCH, none⟩]
    feedbacks := [⟨1, "out-1", OutputType.SUMMARY, 1, none, none,
      FeedbackType.NEEDS_REVISION, none⟩] }

/-- A store whose patent evidence scores 0.76 (patent-RED) while a
research item scores the higher 0.78 (research-YELLOW). -/
def dbPatentRedResearchYellow : Db :=
  { projects := [⟨1, ProjectType.RESEARCH, none⟩]
    evidences := [⟨1, 1, "paper"⟩, ⟨2, 1, "patent"⟩]
    scores := [⟨1, 1, 1, 7800, "paper"⟩, ⟨2, 1, 2, 7600, "patent"⟩] }

/-- A research-type project in the "LEGAL" domain with five evidence
items, no feedback and a GREEN analysis state. -/
def dbLegalDomain : Db :=
  { projects := [⟨1, ProjectType.RESEARCH, some "LEGAL"⟩]
    evidences := [⟨1, 1, "paper"⟩, ⟨2, 1, "paper"⟩, ⟨3, 1, "paper"⟩,
      ⟨4, 1, "paper"⟩, ⟨5, 1, "paper"⟩]
    analysisStates := [⟨1, NoveltyRiskLevel.GREEN, none, none⟩] }

/-- A store holding a single patent-type project and nothing else. -/
def dbPatentProject : Db :=
  { projects := [⟨1, ProjectType.PATENT, none⟩] }

/-- Settings with compliance mode switched on. -/
def settingsComplianceOn : Settings :=
  { compliance_mode := true }

/-- Settings with audit logging switched off. -/
def settingsAuditOff : Settings :=
  { audit_logs_enabled := false }


/-! ## Theorems -/

/-- Helper: the embedded rule chain of `calculate_confidence` equals
first-match evaluation of the spec's decision list. -/
theorem calib_first_match (risk : NoveltyRiskLevel) (ec : Nat) (rate : ℚ) (restricted : Bool) :
    (applyCalibrationRules risk ec rate restricted).1 =
      firstMatch (specDecisionList risk ec rate restricted) ConfidenceLevel.LOW := by
  unfold applyCalibrationRules specDecisionList
  simp only [EVIDENCE_COUNT_LOW_THRESHOLD, EVIDENCE_COUNT_MEDIUM_THRESHOLD,
    DISAGREEMENT_HIGH_THRESHOLD]
  rcases Bool.eq_false_or_eq_true ((risk == NoveltyRiskLevel.RED) && decide (ec < 3)) with h1 | h1 <;>
  rcases Bool.eq_false_or_eq_true (decide (rate > 30/100)) with h2 | h2 <;>
  rcases Bool.eq_false_or_eq_true restricted with h3 | h3 <;>
  rcases Bool.eq_false_or_eq_true (decide (ec ≥ 10) && decide (rate < 1/10)) with h4 | h4 <;>
  rcases Bool.eq_false_or_eq_true (decide (ec ≥ 3)) with h5 | h5 <;>
  rcases Bool.eq_false_or_eq_true (decide (rate < 2/10)) with h6 | h6 <;>
  simp_all [firstMatch] <;> simp [apply_ite Prod.fst]

/-- Helper: a property holding of every rule output and of the default
holds of the first-match result. -/
theorem firstMatch_prop (P : ConfidenceLevel → Prop) :
    ∀ (l : List (Bool × ConfidenceLevel)) (d : ConfidenceLevel),
      (∀ p ∈ l, P p.2) → P d → P (firstMatch l d)
  | [], d, _, hd => hd
  | (c, out) :: rest, d, h, hd => by
      cases c
      · simpa [firstMatch] using firstMatch_prop P rest d
          (fun p hp => h p (List.mem_cons_of_mem _ hp)) hd
      · simpa [firstMatch] using h (true, out) (List.mem_cons_self _ _)

/-- Helper: no branch of the calibration rule chain yields HIGH. -/
theorem applyCalibrationRules_fst_ne_HIGH (risk : NoveltyRiskLevel) (ec : Nat)
    (rate : ℚ) (restricted : Bool) :
    (applyCalibrationRules risk ec rate restricted).1 ≠ ConfidenceLevel.HIGH := by
  rw [calib_first_match]
  refine firstMatch_prop (fun x => x ≠ ConfidenceLevel.HIGH) _ _ ?_ (by simp)
  intro p hp
  simp only [specDecisionList, List.mem_cons, List.not_mem_nil, or_false] at hp
  rcases hp with rfl | rfl | rfl | rfl | rfl <;> (try simp) <;> (split <;> simp)

/-- Helper: when the project exists, the returned confidence level is the
rule-chain output on the derived metrics. -/
theorem calculate_confidence_level_eq (db : Db) (pid : Nat) (p : Project)
    (h : db.projects.find? (fun q => q.id == pid) = some p) :
    (calculate_confidence db pid).confidence_level =
      (applyCalibrationRules (projNoveltyRisk db pid) (projEvidenceCount db pid)
        (projDisagreementRate db pid) (is_restricted_context p)).1 := by
  unfold calculate_confidence
  rw [h]

/-- Claim C1 (confirmed): for every stored project the calibrator treats as
restricted context (`project.type == PATENT`), `calculate_confidence`
yields a confidence level in LOW or MEDIUM — never HIGH — for any
combination of evidence, novelty risk, disagreement and feedback. -/
theorem c1_restricted_never_HIGH (db : Db) (project_id : Nat) (p : Project)
    (hfind : db.projects.find? (fun q => q.id == project_id) = some p)
    (hres : is_restricted_context p = true) :
    (calculate_confidence db project_id).confidence_level = ConfidenceLevel.LOW ∨
      (calculate_confidence db project_id).confidence_level = ConfidenceLevel.MEDIUM := by
  rw [calculate_confidence_level_eq db project_id p hfind]
  have hne := applyCalibrationRules_fst_ne_HIGH (projNoveltyRisk db project_id)
    (projEvidenceCount db project_id) (projDisagreementRate db project_id)
    (is_restricted_context p)
  cases hlev : (applyCalibrationRules (projNoveltyRisk db project_id)
      (projEvidenceCount db project_id) (projDisagreementRate db project_id)
      (is_restricted_context p)).1
  · exact Or.inl rfl
  · exact Or.inr rfl
  · exact absurd hlev hne

/-- Claim C1 witness: the never-HIGH theorem applied to a concrete store
holding one patent-type project. -/
theorem c1_witness :
    dbPatentProject.projects.find? (fun q => q.id == 1) =
        some ⟨1, ProjectType.PATENT, none⟩ ∧
      is_restricted_context ⟨1, ProjectType.PATENT, none⟩ = true ∧
      ((calculate_confidence dbPatentProject 1).confidence_level = ConfidenceLevel.LOW ∨
        (calculate_confidence dbPatentProject 1).confidence_level = ConfidenceLevel.MEDIUM) :=
  ⟨by rfl, by rfl, c1_restricted_never_HIGH dbPatentProject 1 ⟨1, ProjectType.PATENT, none⟩
    (by rfl) (by rfl)⟩

/-- Claim C6 (confirmed): the calibrator evaluates its six rules as an
ordered decision list — the first matching rule determines the level and
later rules never override it — with exactly the claimed conditions and
outputs, both for the rule chain itself and for `calculate_confidence`
over any stored project. -/
theorem c6_decision_list :
    (∀ (risk : NoveltyRiskLevel) (ec : Nat) (rate : ℚ) (restricted : Bool),
        (applyCalibrationRules risk ec rate restricted).1 =
          firstMatch (specDecisionList risk ec rate restricted) ConfidenceLevel.LOW) ∧
      (∀ (db : Db) (pid : Nat) (p : Project),
        db.projects.find? (fun q => q.id == pid) = some p →
          (calculate_confidence db pid).confidence_level =
            firstMatch (specDecisionList (projNoveltyRisk db pid)
              (projEvidenceCount db pid) (projDisagreementRate db pid)
              (is_restricted_context p)) ConfidenceLevel.LOW) := by
  refine ⟨calib_first_match, ?_⟩
  intro db pid p h
  rw [calculate_confidence_level_eq db pid p h]
  exact calib_first_match _ _ _ _

/-- Claim C6 witness: the decision-list theorem applied to concrete rule
inputs and to the concrete one-patent-project store. -/
theorem c6_witness :
    (applyCalibrationRules NoveltyRiskLevel.GREEN 5 0 false).1 =
        firstMatch (specDecisionList NoveltyRiskLevel.GREEN 5 0 false) ConfidenceLevel.LOW ∧
      (calculate_confidence dbPatentProject 1).confidence_level =
        firstMatch (specDecisionList (projNoveltyRisk dbPatentProject 1)
          (projEvidenceCount dbPatentProject 1) (projDisagreementRate dbPatentProject 1)
          (is_restricted_context ⟨1, ProjectType.PATENT, none⟩)) ConfidenceLevel.LOW :=
  ⟨c6_decision_list.1 NoveltyRiskLevel.GREEN 5 0 false,
    c6_decision_list.2 dbPatentProject 1 ⟨1, ProjectType.PATENT, none⟩ (by rfl)⟩

/-- Claim C4 counterexample: a RESEARCH-type project in the "LEGAL" domain
(one of the four domains in the unused `RESTRICTED_CONTEXTS` constant) is
not treated as restricted context: with five evidence items and no
disagreement the code yields MEDIUM, while the restricted branch would
yield LOW. -/
theorem c4_counterexample :
    "LEGAL" ∈ RESTRICTED_CONTEXTS ∧
      is_restricted_context ⟨1, ProjectType.RESEARCH, some "LEGAL"⟩ = false ∧
      (calculate_confidence dbLegalDomain 1).confidence_level = ConfidenceLevel.MEDIUM ∧
      (applyCalibrationRules NoveltyRiskLevel.GREEN 5 0 true).1 = ConfidenceLevel.LOW := by
  refine ⟨by simp [RESTRICTED_CONTEXTS], by rfl, ?_, ?_⟩
  · norm_num [calculate_confidence, dbLegalDomain, projEvidenceCount, projNoveltyRisk,
      projFeedback, projDisagreementRate, projSimilarityClarity, applyCalibrationRules,
      is_restricted_context, sortScoresDesc, insertScoreDesc, EVIDENCE_COUNT_LOW_THRESHOLD,
      EVIDENCE_COUNT_MEDIUM_THRESHOLD, DISAGREEMENT_HIGH_THRESHOLD, SIMILARITY_CLARITY_THRESHOLD,
      List.find?, List.filter]
    simp
  · norm_num [applyCalibrationRules, EVIDENCE_COUNT_LOW_THRESHOLD,
      EVIDENCE_COUNT_MEDIUM_THRESHOLD, DISAGREEMENT_HIGH_THRESHOLD]

/-- Claim C4 (corrected): only projects of type PATENT are treated as
restricted context; nevertheless the calibrator never returns HIGH for
any project whatsoever. -/
theorem c4_amended :
    (∀ p : Project, is_restricted_context p = true ↔ p.type = ProjectType.PATENT) ∧
      ∀ (db : Db) (pid : Nat),
        (calculate_confidence db pid).confidence_level ≠ ConfidenceLevel.HIGH := by
  constructor
  · intro p
    simp [is_restricted_context]
  · intro db pid
    cases hf : db.projects.find? (fun q => q.id == pid) with
    | none =>
        unfold calculate_confidence
        rw [hf]
        simp
    | some p =>
        rw [calculate_confidence_level_eq db pid p hf]
        exact applyCalibrationRules_fst_ne_HIGH _ _ _ _

/-- Claim C4 witness: the amended theorem applied to a concrete patent
project and the concrete "LEGAL"-domain store. -/
theorem c4_amended_witness :
    (is_restricted_context ⟨1, ProjectType.PATENT, none⟩ = true ↔
        (Project.mk 1 ProjectType.PATENT none).type = ProjectType.PATENT) ∧
      (calculate_confidence dbLegalDomain 1).confidence_level ≠ ConfidenceLevel.HIGH :=
  ⟨c4_amended.1 ⟨1, ProjectType.PATENT, none⟩, c4_amended.2 dbLegalDomain 1⟩

/-- Claim C3 counterexample: with a single NEEDS_REVISION record the
calibrator's disagreement rate and the project-level rate are 1, whereas
the claimed four-kind formula (which the per-output summary follows)
gives 0. -/
theorem c3_counterexample :
    (calculate_confidence dbNeedsRevisionOnly 1).metrics_disagreement_rate = 1 ∧
      (get_project_feedback dbNeedsRevisionOnly 1).overall_disagreement_rate = 1 ∧
      (get_feedback_for_output dbNeedsRevisionOnly "out-1").disagreement_rate = 0 ∧
      calculate_disagreement_rate 0 0 0 0 = 0 := by
  refine ⟨?_, ?_, ?_, ?_⟩
  · norm_num [calculate_confidence, dbNeedsRevisionOnly, projEvidenceCount, projNoveltyRisk,
      projFeedback, projDisagreementRate, projSimilarityClarity, calibDisagreeTypes,
      is_restricted_context, sortScoresDesc, round3, roundHalfEven,
      List.find?, List.filter]
  · norm_num [get_project_feedback, dbNeedsRevisionOnly, calibDisagreeTypes,
      round3, roundHalfEven, List.filter]
  · decide
  · decide

/-- Helper: rounding zero gives zero. -/
theorem round3_zero : round3 0 = 0 := by
  norm_num [round3, roundHalfEven]

/-- Helper: closed form of `calculate_disagreement_rate`. -/
theorem calculate_disagreement_rate_eq (d a nh h : Nat) :
    calculate_disagreement_rate d a nh h =
      if d + nh + a + h = 0 then (0 : ℚ)
      else round3 (((d + nh : Nat) : ℚ) / ((d + nh + a + h : Nat) : ℚ)) := by
  unfold calculate_disagreement_rate
  dsimp only
  have hc : a + h + (d + nh) = d + nh + a + h := by omega
  rw [hc]
  simp [beq_iff_eq]

/-- Helper: when the project exists, the reported metric is the rounded
internal disagreement rate. -/
theorem calculate_confidence_metrics_rate (db : Db) (pid : Nat) (p : Project)
    (hfind : db.projects.find? (fun q => q.id == pid) = some p) :
    (calculate_confidence db pid).metrics_disagreement_rate =
      round3 (projDisagreementRate db pid) := by
  unfold calculate_confidence
  rw [hfind]

/-- Claim C3 (corrected): the per-output summary rate is the four-kind
ratio (DISAGREE+NOT_HELPFUL over the four binary kinds, NEEDS_REVISION
and NEEDS_EXPERT excluded), rounded to three decimals, 0.0 when no
qualifying records exist; but the rate the calibrator consumes and the
project-level rate instead count NEEDS_REVISION in the numerator and all
of the project's records (including NEEDS_EXPERT) in the denominator. -/
theorem c3_amended (db : Db) (output_id : String) (project_id : Nat) (p : Project)
    (hfind : db.projects.find? (fun q => q.id == project_id) = some p) :
    ((get_feedback_for_output db output_id).disagreement_rate =
      (if (get_feedback_for_output db output_id).disagree_count +
            (get_feedback_for_output db output_id).not_helpful_count +
            (get_feedback_for_output db output_id).agree_count +
            (get_feedback_for_output db output_id).helpful_count = 0 then (0 : ℚ)
       else round3
        ((((get_feedback_for_output db output_id).disagree_count +
            (get_feedback_for_output db output_id).not_helpful_count : Nat) : ℚ) /
          (((get_feedback_for_output db output_id).disagree_count +
            (get_feedback_for_output db output_id).not_helpful_count +
            (get_feedback_for_output db output_id).agree_count +
            (get_feedback_for_output db output_id).helpful_count : Nat) : ℚ)))) ∧
    ((calculate_confidence db project_id).metrics_disagreement_rate =
      (if (db.feedbacks.filter (fun f => f.project_id == project_id)).length = 0 then (0 : ℚ)
       else round3
        ((((db.feedbacks.filter (fun f => f.project_id == project_id)).filter
            (fun f => f.feedback_type == FeedbackType.DISAGREE ||
              f.feedback_type == FeedbackType.NOT_HELPFUL ||
              f.feedback_type == FeedbackType.NEEDS_REVISION)).length : ℚ) /
          ((db.feedbacks.filter (fun f => f.project_id == project_id)).length : ℚ)))) ∧
    ((get_project_feedback db project_id).overall_disagreement_rate =
      (if (db.feedbacks.filter (fun f => f.project_id == project_id)).length = 0 then (0 : ℚ)
       else round3
        ((((db.feedbacks.filter (fun f => f.project_id == project_id)).filter
            (fun f => f.feedback_type == FeedbackType.DISAGREE ||
              f.feedback_type == FeedbackType.NOT_HELPFUL ||
              f.feedback_type == FeedbackType.NEEDS_REVISION)).length : ℚ) /
          ((db.feedbacks.filter (fun f => f.project_id == project_id)).length : ℚ)))) := by
  refine ⟨?_, ?_, ?_⟩
  · simp only [get_feedback_for_output]
    exact calculate_disagreement_rate_eq _ _ _ _
  · rw [calculate_confidence_metrics_rate db project_id p hfind]
    unfold projDisagreementRate projFeedback calibDisagreeTypes
    by_cases hl : (db.feedbacks.filter (fun f => f.project_id == project_id)).length = 0
    · simp [hl, round3_zero]
    · simp [hl, beq_iff_eq]
  · unfold get_project_feedback calibDisagreeTypes
    simp only [List.filter_reverse, List.length_reverse, List.isEmpty_iff]
    by_cases hl : (db.feedbacks.filter (fun f => f.project_id == project_id)).length = 0
    · have : db.feedbacks.filter (fun f => f.project_id == project_id) = [] :=
        List.length_eq_zero.mp hl
      simp [this, round3_zero]
    · have hne : db.feedbacks.filter (fun f => f.project_id == project_id) ≠ [] := by
        intro hcon
        exact hl (by simp [hcon])
      simp [hne, hl]

/-- Claim C3 witness: the amended theorem applied to the concrete
NEEDS_REVISION-only store. -/
theorem c3_amended_witness :
    (get_feedback_for_output dbNeedsRevisionOnly "out-1").disagreement_rate = 0 ∧
      (calculate_confidence dbNeedsRevisionOnly 1).metrics_disagreement_rate = 1 := by
  have hc := c3_amended dbNeedsRevisionOnly "out-1" 1 ⟨1, ProjectType.RESEARCH, none⟩ (by rfl)
  constructor
  · rw [hc.1]
    decide
  · rw [hc.2.1]
    norm_num [dbNeedsRevisionOnly, round3, roundHalfEven, List.filter]

/-- Helper: the stored integer score and its float form order alike. -/
theorem score_float_le_iff (a b : SimilarityScore) :
    a.score_float ≤ b.score_float ↔ a.score ≤ b.score := by
  unfold SimilarityScore.score_float
  rw [div_le_div_iff_of_pos_right (by norm_num : (0:ℚ) < 10000)]
  exact Int.cast_le

/-- Helper: strict version of the score order transfer. -/
theorem score_float_lt_iff (a b : SimilarityScore) :
    a.score_float < b.score_float ↔ a.score < b.score := by
  unfold SimilarityScore.score_float
  rw [div_lt_div_iff_of_pos_right (by norm_num : (0:ℚ) < 10000)]
  exact Int.cast_lt

/-- Helper: the maximal float score is the float of the argmax row. -/
theorem maxScoreFloat_eq (t : List SimilarityScore) :
    ∀ h : SimilarityScore, maxScoreFloat h t = (maxByScore h t).score_float := by
  induction t with
  | nil => intro h; rfl
  | cons s rest ih =>
      intro h
      have key : max h.score_float s.score_float =
          (if h.score < s.score then s else h).score_float := by
        rcases lt_or_le h.score s.score with hlt | hle
        · rw [if_pos hlt]
          exact max_eq_right (le_of_lt ((score_float_lt_iff h s).mpr hlt))
        · rw [if_neg (not_lt.mpr hle)]
          exact max_eq_left ((score_float_le_iff s h).mpr hle)
      show List.foldl (fun m s => max m s.score_float) (max h.score_float s.score_float) rest =
        (List.foldl (fun best s => if best.score < s.score then s else best)
          (if h.score < s.score then s else h) rest).score_float
      rw [key]
      exact ih (if h.score < s.score then s else h)

/-- Helper: the argmax row is one of the rows. -/
theorem maxByScore_mem (t : List SimilarityScore) :
    ∀ h : SimilarityScore, maxByScore h t ∈ h :: t := by
  induction t with
  | nil => intro h; exact List.mem_singleton_self h
  | cons s rest ih =>
      intro h
      have : maxByScore h (s :: rest) = maxByScore (if h.score < s.score then s else h) rest := rfl
      rw [this]
      have hmem := ih (if h.score < s.score then s else h)
      rcases List.mem_cons.mp hmem with heq | hmem2
      · rw [heq]
        by_cases hc : h.score < s.score
        · simp [hc]
        · simp [hc]
      · exact List.mem_cons_of_mem _ (List.mem_cons_of_mem _ hmem2)

/-- Helper: the argmax row's score bounds every row's score. -/
theorem maxByScore_ge (t : List SimilarityScore) :
    ∀ h : SimilarityScore, ∀ s' ∈ h :: t, s'.score ≤ (maxByScore h t).score := by
  induction t with
  | nil =>
      intro h s' hs'
      rcases List.mem_singleton.mp hs' with rfl
      exact le_refl _
  | cons s rest ih =>
      intro h s' hs'
      have hstep : maxByScore h (s :: rest) = maxByScore (if h.score < s.score then s else h) rest := rfl
      rw [hstep]
      have hx : h.score ≤ (if h.score < s.score then s else h).score := by
        by_cases hc : h.score < s.score
        · simp [hc]; exact le_of_lt hc
        · simp [hc]
      have hy : s.score ≤ (if h.score < s.score then s else h).score := by
        by_cases hc : h.score < s.score
        · simp [hc]
        · simp [hc]; exact le_of_not_lt hc
      rcases List.mem_cons.mp hs' with rfl | hs2
      · exact le_trans hx (ih _ _ (List.mem_cons_self _ _))
      · rcases List.mem_cons.mp hs2 with rfl | hs3
        · exact le_trans hy (ih _ _ (List.mem_cons_self _ _))
        · exact ih _ _ (List.mem_cons_of_mem _ hs3)

/-- Claim C2 (corrected): with at least one stored similarity score, the
project-level verdict is the classification of the single highest-scoring
row's float score under that row's own evidence kind — not the
highest-severity of the research and patent risks. -/
theorem c2_amended (settings : Settings) (db : Db) (pid : Nat)
    (h : SimilarityScore) (t : List SimilarityScore)
    (hscores : db.scores.filter (fun s => s.project_id == pid) = h :: t) :
    maxByScore h t ∈ h :: t ∧
      (∀ s ∈ h :: t, s.score ≤ (maxByScore h t).score) ∧
      (get_novelty_risk settings db pid).novelty_risk =
        classify_novelty_risk settings (maxByScore h t).score_float
          (maxByScore h t).evidence_type ∧
      (get_novelty_risk settings db pid).max_similarity_score =
        some (maxByScore h t).score_float := by
  refine ⟨maxByScore_mem t h, maxByScore_ge t h, ?_, ?_⟩
  · unfold get_novelty_risk
    rw [hscores]
    simp only []
    rw [maxScoreFloat_eq]
  · unfold get_novelty_risk
    rw [hscores]
    simp only []
    rw [maxScoreFloat_eq]

/-- Claim C2 counterexample: a patent score of 0.76 classifies RED and a
research score of 0.78 classifies YELLOW, yet the overall verdict is
YELLOW — not the severity-maximum RED the claim requires. -/
theorem c2_counterexample :
    (get_novelty_risk {} dbPatentRedResearchYellow 1).research_risk = NoveltyRiskLevel.YELLOW ∧
      (get_novelty_risk {} dbPatentRedResearchYellow 1).patent_risk = NoveltyRiskLevel.RED ∧
      (get_novelty_risk {} dbPatentRedResearchYellow 1).novelty_risk = NoveltyRiskLevel.YELLOW ∧
      (get_novelty_risk {} dbPatentRedResearchYellow 1).novelty_risk ≠
        riskMaxSeverity (get_novelty_risk {} dbPatentRedResearchYellow 1).research_risk
          (get_novelty_risk {} dbPatentRedResearchYellow 1).patent_risk := by
  have hs1 : ("paper" == "paper") = true := by decide
  have hs2 : ("patent" == "paper") = false := by decide
  have hs3 : ("paper" == "patent") = false := by decide
  have hs4 : ("patent" == "patent") = true := by decide
  have e1 : (get_novelty_risk {} dbPatentRedResearchYellow 1).research_risk =
      NoveltyRiskLevel.YELLOW := by
    norm_num [get_novelty_risk, dbPatentRedResearchYellow, classify_novelty_risk,
      maxScoreFloat?, maxScoreFloat, maxByScore, SimilarityScore.score_float, List.filter,
      hs1, hs2, hs3, hs4]
  have e2 : (get_novelty_risk {} dbPatentRedResearchYellow 1).patent_risk =
      NoveltyRiskLevel.RED := by
    norm_num [get_novelty_risk, dbPatentRedResearchYellow, classify_novelty_risk,
      maxScoreFloat?, maxScoreFloat, maxByScore, SimilarityScore.score_float, List.filter,
      hs1, hs2, hs3, hs4]
  have e3 : (get_novelty_risk {} dbPatentRedResearchYellow 1).novelty_risk =
      NoveltyRiskLevel.YELLOW := by
    norm_num [get_novelty_risk, dbPatentRedResearchYellow, classify_novelty_risk,
      maxScoreFloat?, maxScoreFloat, maxByScore, SimilarityScore.score_float, List.filter,
      hs1, hs2, hs3, hs4]
  refine ⟨e1, e2, e3, ?_⟩
  rw [e1, e2, e3]
  decide

/-- Claim C2 witness: the amended theorem applied to the concrete
patent-RED / research-YELLOW store. -/
theorem c2_amended_witness :
    (get_novelty_risk {} dbPatentRedResearchYellow 1).novelty_risk =
        classify_novelty_risk {}
          (maxByScore ⟨1, 1, 1, 7800, "paper"⟩ [⟨2, 1, 2, 7600, "patent"⟩]).score_float
          (maxByScore ⟨1, 1, 1, 7800, "paper"⟩ [⟨2, 1, 2, 7600, "patent"⟩]).evidence_type ∧
      (get_novelty_risk {} dbPatentRedResearchYellow 1).max_similarity_score =
        some (maxByScore ⟨1, 1, 1, 7800, "paper"⟩ [⟨2, 1, 2, 7600, "patent"⟩]).score_float := by
  have hc := c2_amended {} dbPatentRedResearchYellow 1 ⟨1, 1, 1, 7800, "paper"⟩
    [⟨2, 1, 2, 7600, "patent"⟩] (by rfl)
  exact ⟨hc.2.2.1, hc.2.2.2⟩

/-- Helper: `log_action` only ever appends to the audit ledger. -/
theorem log_action_extends_auditLogs (settings : Settings) (db : Db)
    (action_type entity_type : String) (entity_id : Option Int)
    (user_id metadata : Option String) :
    db.auditLogs <+:
      (log_action settings db action_type entity_type entity_id user_id metadata).2.auditLogs := by
  unfold log_action
  by_cases hen : settings.audit_logs_enabled
  · simp only [hen]
    cases ActionType.ofString? action_type with
    | none => simp
    | some a => simp
  · simp only [Bool.not_eq_true] at hen
    simp [hen]

/-- Helper: feedback submission never touches the audit ledger. -/
theorem submit_feedback_auditLogs (db : Db) (oid ot : String) (pid : Nat)
    (ft : String) (uid ur comment : Option String) :
    (submit_feedback db oid ot pid ft uid ur comment).2.auditLogs = db.auditLogs := by
  unfold submit_feedback
  cases FeedbackType.ofString? ft with
  | none => rfl
  | some fb =>
      cases OutputType.ofString? ot with
      | none => rfl
      | some out => rfl

/-- Helper: the similarity upsert never touches the audit ledger. -/
theorem upsert_auditLogs (db : Db) (pid eid : Nat) (score : Int) (et : String) :
    (upsertSimilarityScore db pid eid score et).auditLogs = db.auditLogs := by
  unfold upsertSimilarityScore
  cases db.scores.find? (fun s => s.project_id == pid && s.evidence_id == eid) with
  | none => rfl
  | some s => rfl

/-- Helper: the calibration upsert never touches the audit ledger. -/
theorem get_or_create_calibration_auditLogs (db : Db) (pid : Nat) :
    (get_or_create_calibration db pid).2.auditLogs = db.auditLogs := by
  unfold get_or_create_calibration
  cases db.calibrations.find? (fun c => c.project_id == pid) with
  | none => rfl
  | some c => rfl

/-- Helper: every public operation leaves the previous audit ledger as a
left part of the new one. -/
theorem stepOp_extends_auditLogs (settings : Settings) (db : Db) (op : Op) :
    db.auditLogs <+: (stepOp settings db op).auditLogs := by
  cases op with
  | createProject ptype domain =>
      exact log_action_extends_auditLogs settings
        { db with projects := db.projects ++
          [{ id := db.projects.length + 1, type := ptype, domain := domain }] }
        "PROJECT_CREATED" "Project" (some ((db.projects.length + 1 : Nat) : Int)) none none
  | submitFeedback oid ot pid ft comment =>
      rw [show (stepOp settings db (Op.submitFeedback oid ot pid ft comment)).auditLogs =
        db.auditLogs from submit_feedback_auditLogs db oid ot pid ft none none comment]
  | computeSimilarity pid eid score et =>
      rw [show (stepOp settings db (Op.computeSimilarity pid eid score et)).auditLogs =
        db.auditLogs from upsert_auditLogs db pid eid score et]
  | classifyNovelty pid => exact ⟨[], List.append_nil _⟩
  | calibrate pid =>
      rw [show (stepOp settings db (Op.calibrate pid)).auditLogs =
        db.auditLogs from get_or_create_calibration_auditLogs db pid]
  | checkFeature name => exact ⟨[], List.append_nil _⟩
  | auditAppend a e eid uid md =>
      exact log_action_extends_auditLogs settings db a e eid uid md

/-- Claim C5 (confirmed): after any sequence of public business operations
(project creation, feedback submission, similarity computation, risk
classification, calibration, compliance checks, audit appends) the
previously written audit-log rows are an unchanged initial segment of the
ledger — no operation modifies or removes an existing `AuditLog` row. -/
theorem c5_audit_append_only (settings : Settings) (db : Db) (ops : List Op) :
    db.auditLogs <+: (runOps settings db ops).auditLogs := by
  induction ops generalizing db with
  | nil => exact ⟨[], List.append_nil _⟩
  | cons op rest ih =>
      have h1 := stepOp_extends_auditLogs settings db op
      have h2 := ih (stepOp settings db op)
      exact h1.trans h2

/-- Helper: the summary's DISAGREE count is a double filter length. -/
theorem summary_disagree_count (db : Db) (oid : String) :
    (get_feedback_for_output db oid).disagree_count =
      ((db.feedbacks.filter (fun f => f.output_id == oid)).filter
        (fun f => f.feedback_type == FeedbackType.DISAGREE)).length := by
  unfold get_feedback_for_output
  simp [List.filter_reverse, List.length_reverse]

/-- Helper: the summary's total count is a filter length. -/
theorem summary_total_count (db : Db) (oid : String) :
    (get_feedback_for_output db oid).total_count =
      (db.feedbacks.filter (fun f => f.output_id == oid)).length := by
  unfold get_feedback_for_output
  simp [List.length_reverse]

/-- Helper: a valid submission appends exactly one row. -/
theorem submit_feedback_valid_feedbacks (db : Db) (oid ot : String) (pid : Nat)
    (ft : String) (comment : Option String) (fb : FeedbackType) (out : OutputType)
    (hfb : FeedbackType.ofString? ft = some fb)
    (hout : OutputType.ofString? ot = some out) :
    (submit_feedback db oid ot pid ft none none comment).1.success = true ∧
      (submit_feedback db oid ot pid ft none none comment).2.feedbacks =
        db.feedbacks ++ [⟨db.feedbacks.length + 1, oid, out, pid, none, none, fb, comment⟩] := by
  unfold submit_feedback
  rw [hfb, hout]
  exact ⟨rfl, rfl⟩

/-- Claim C7 (confirmed): submissions with a feedback kind or output kind
outside the closed enumerations are rejected with `success = false` and
write nothing; a valid submission appends exactly one record, leaving all
prior records in place; N DISAGREE submissions for one output leave the
prior store as an unchanged initial segment, add exactly N records, and
the summary reflects all N. -/
theorem c7_feedback (db : Db) (oid ot : String) (pid : Nat) (ft : String)
    (comment : Option String) :
    (FeedbackType.ofString? ft = none →
        (submit_feedback db oid ot pid ft none none comment).1.success = false ∧
        (submit_feedback db oid ot pid ft none none comment).2 = db) ∧
      (OutputType.ofString? ot = none →
        (submit_feedback db oid ot pid ft none none comment).1.success = false ∧
        (submit_feedback db oid ot pid ft none none comment).2 = db) ∧
      (∀ (fb : FeedbackType) (out : OutputType),
        FeedbackType.ofString? ft = some fb → OutputType.ofString? ot = some out →
          (submit_feedback db oid ot pid ft none none comment).1.success = true ∧
          (submit_feedback db oid ot pid ft none none comment).2.feedbacks =
            db.feedbacks ++
              [⟨db.feedbacks.length + 1, oid, out, pid, none, none, fb, comment⟩]) ∧
      (∀ (out : OutputType) (n : Nat), OutputType.ofString? ot = some out →
        db.feedbacks <+: (submitDisagreeN db oid ot pid n).feedbacks ∧
        (submitDisagreeN db oid ot pid n).feedbacks.length = db.feedbacks.length + n ∧
        (get_feedback_for_output (submitDisagreeN db oid ot pid n) oid).disagree_count =
          (get_feedback_for_output db oid).disagree_count + n ∧
        (get_feedback_for_output (submitDisagreeN db oid ot pid n) oid).total_count =
          (get_feedback_for_output db oid).total_count + n) := by
  refine ⟨?_, ?_, ?_, ?_⟩
  · intro h
    unfold submit_feedback
    rw [h]
    exact ⟨rfl, rfl⟩
  · intro hot
    unfold submit_feedback
    cases hft : FeedbackType.ofString? ft with
    | none => exact ⟨rfl, rfl⟩
    | some fb =>
        rw [hot]
        exact ⟨rfl, rfl⟩
  · intro fb out hfb hout
    exact submit_feedback_valid_feedbacks db oid ot pid ft comment fb out hfb hout
  · intro out n hout
    induction n with
    | zero => exact ⟨⟨[], List.append_nil _⟩, by simp [submitDisagreeN], by simp [submitDisagreeN],
        by simp [submitDisagreeN]⟩
    | succ m ih =>
        rcases ih with ⟨ihpre, ihlen, ihdis, ihtot⟩
        have hstep := submit_feedback_valid_feedbacks (submitDisagreeN db oid ot pid m)
          oid ot pid "DISAGREE" none FeedbackType.DISAGREE out rfl hout
        have hfb1 : (submitDisagreeN db oid ot pid (m + 1)).feedbacks =
            (submitDisagreeN db oid ot pid m).feedbacks ++
              [⟨(submitDisagreeN db oid ot pid m).feedbacks.length + 1, oid, out, pid,
                none, none, FeedbackType.DISAGREE, none⟩] := hstep.2
    -- the appended row passes both the output filter and the DISAGREE filter
    -- so counts grow by exactly one
        refine ⟨?_, ?_, ?_, ?_⟩
        · exact ihpre.trans (by rw [hfb1]; exact ⟨_, rfl⟩)
        · rw [hfb1]
          simp [ihlen]
          omega
        · rw [summary_disagree_count, hfb1, List.filter_append, List.filter_append]
          rw [summary_disagree_count] at ihdis
          simp [List.filter, beq_iff_eq] at ihdis ⊢
          omega
        · rw [summary_total_count, hfb1, List.filter_append]
          rw [summary_total_count] at ihtot
          simp [List.filter, beq_iff_eq] at ihtot ⊢
          omega

/-- Claim C7 witness: the theorem applied to an invalid kind and to three
concrete DISAGREE submissions on an empty store. -/
theorem c7_witness :
    (submit_feedback ({} : Db) "out-9" "CLAIM" 7 "WRONG_KIND" none none none).1.success = false ∧
      (submit_feedback ({} : Db) "out-9" "CLAIM" 7 "WRONG_KIND" none none none).2 = ({} : Db) ∧
      (submitDisagreeN ({} : Db) "out-9" "CLAIM" 7 3).feedbacks.length = 3 ∧
      (get_feedback_for_output (submitDisagreeN ({} : Db) "out-9" "CLAIM" 7 3)
        "out-9").disagree_count = 3 := by
  have hbad := (c7_feedback ({} : Db) "out-9" "CLAIM" 7 "WRONG_KIND" none).1 (by rfl)
  have hgood := (c7_feedback ({} : Db) "out-9" "CLAIM" 7 "DISAGREE" none).2.2.2
    OutputType.CLAIM 3 (by rfl)
  refine ⟨hbad.1, hbad.2, ?_, ?_⟩
  · rw [hgood.2.1]
    rfl
  · rw [hgood.2.2.1]
    decide

/-- Claim C8 counterexample: in compliance mode the blocked feature is
rejected with FastAPI's `HTTPException(403)` carrying the reason — the
`ComplianceViolation` class defined in the module is never the raised
error. -/
theorem c8_counterexample :
    validate_feature_access settingsComplianceOn "PATENT_CLAIM_GENERATION" =
        Except.error (ComplianceError.httpException 403
          "Compliance Restriction: Patent claim generation is disabled in Compliance Mode to prevent unauthorized legal practice.") ∧
      raisedComplianceViolation
        (validate_feature_access settingsComplianceOn "PATENT_CLAIM_GENERATION") = false := by
  constructor
  · rfl
  · rfl

/-- Claim C8 (corrected): the compliance check fails exactly when
compliance mode is active and the feature is listed with
`allowed_in_compliance = False`; inactive mode and unlisted features
always pass; every failure is an `HTTPException` with status 403 whose
detail is the table's human-readable reason — not the (unused)
`ComplianceViolation` exception class. -/
theorem c8_amended (settings : Settings) (feature : String) :
    (settings.compliance_mode = false →
        validate_feature_access settings feature = Except.ok ()) ∧
      (RESTRICTED_FEATURES.find? (fun r => r.1 == feature) = none →
        validate_feature_access settings feature = Except.ok ()) ∧
      (∀ (name : String) (allowed : Bool) (reason : String),
        RESTRICTED_FEATURES.find? (fun r => r.1 == feature) = some (name, (allowed, reason)) →
          validate_feature_access settings feature =
            (if settings.compliance_mode && !allowed then
              Except.error (ComplianceError.httpException 403
                ("Compliance Restriction: " ++ reason))
            else Except.ok ())) ∧
      (∀ e, validate_feature_access settings feature = Except.error e →
        ∃ (name : String) (reason : String),
          RESTRICTED_FEATURES.find? (fun r => r.1 == feature) = some (name, (false, reason)) ∧
            e = ComplianceError.httpException 403 ("Compliance Restriction: " ++ reason)) := by
  refine ⟨?_, ?_, ?_, ?_⟩
  · intro hoff
    unfold validate_feature_access is_compliance_mode_active
    simp [hoff]
  · intro hnone
    unfold validate_feature_access is_compliance_mode_active
    by_cases hcm : settings.compliance_mode
    · simp [hcm, hnone]
    · simp [hcm]
  · intro name allowed reason hfind
    unfold validate_feature_access is_compliance_mode_active
    by_cases hcm : settings.compliance_mode
    · by_cases hal : allowed
      · simp [hcm, hfind, hal]
      · simp [hcm, hfind, hal]
    · simp [hcm]
  · intro e herr
    unfold validate_feature_access is_compliance_mode_active at herr
    by_cases hcm : settings.compliance_mode
    · simp only [hcm, Bool.not_true, Bool.false_eq_true, if_false] at herr
      cases hfind : RESTRICTED_FEATURES.find? (fun r => r.1 == feature) with
      | none => rw [hfind] at herr; simp at herr
      | some rule =>
          rw [hfind] at herr
          rcases rule with ⟨name, allowed, reason⟩
          by_cases hal : allowed
          · simp [hal] at herr
          · have hf : allowed = false := by simpa using hal
            simp [hal] at herr
            exact ⟨name, reason, by rw [hf], herr.symm⟩

    · simp [hcm] at herr

/-- Claim C8 witness: the amended theorem applied to concrete settings and
features in all three regimes. -/
theorem c8_amended_witness :
    validate_feature_access ({} : Settings) "PATENT_CLAIM_GENERATION" = Except.ok () ∧
      validate_feature_access settingsComplianceOn "SOME_UNLISTED_FEATURE" = Except.ok () ∧
      validate_feature_access settingsComplianceOn "PATENT_CLAIM_GENERATION" =
        Except.error (ComplianceError.httpException 403
          ("Compliance Restriction: " ++
            "Patent claim generation is disabled in Compliance Mode to prevent unauthorized legal practice.")) := by
  refine ⟨(c8_amended ({} : Settings) "PATENT_CLAIM_GENERATION").1 rfl, ?_, ?_⟩
  · exact (c8_amended settingsComplianceOn "SOME_UNLISTED_FEATURE").2.1 (by rfl)
  · have h := (c8_amended settingsComplianceOn "PATENT_CLAIM_GENERATION").2.2.1
      "PATENT_CLAIM_GENERATION" false
      "Patent claim generation is disabled in Compliance Mode to prevent unauthorized legal practice."
      (by rfl)
    simpa [settingsComplianceOn] using h

/-- Helper: the calibrator's fixed result for an unknown project. -/
theorem calculate_confidence_not_found (db : Db) (pid : Nat)
    (h : db.projects.find? (fun q => q.id == pid) = none) :
    calculate_confidence db pid =
      ⟨ConfidenceLevel.LOW, true, false, ["Project not found"], 0,
        NoveltyRiskLevel.UNKNOWN, 0, 0, 0⟩ := by
  unfold calculate_confidence
  rw [h]

/-- Claim C9 counterexample: for a project id with no stored project,
`calculate_confidence` returns a normal LOW result with the note
"Project not found" instead of raising, and `get_or_create_calibration`
creates a `ConfidenceCalibration` row for the unknown id — a state
change. -/
theorem c9_counterexample :
    (get_or_create_calibration ({} : Db) 1).2.calibrations =
        [⟨1, 1, ConfidenceLevel.LOW, true, false, ["Project not found"], 0, 0, 0, 0⟩] ∧
      (get_or_create_calibration ({} : Db) 1).1.confidence_level = ConfidenceLevel.LOW ∧
      (get_or_create_calibration ({} : Db) 1).1.calibration_notes = ["Project not found"] ∧
      ({} : Db).calibrations = [] := by
  refine ⟨by decide, by decide, by decide, rfl⟩

/-- Claim C9 (corrected): for an unknown project id the calibrator returns
a LOW result flagged for human review with note "Project not found"
rather than surfacing a not-found error, and the get-or-create operation
then stores a calibration row for the unknown id. -/
theorem c9_amended (db : Db) (pid : Nat)
    (hfind : db.projects.find? (fun q => q.id == pid) = none) :
    calculate_confidence db pid =
        ⟨ConfidenceLevel.LOW, true, false, ["Project not found"], 0,
          NoveltyRiskLevel.UNKNOWN, 0, 0, 0⟩ ∧
      (db.calibrations.find? (fun c => c.project_id == pid) = none →
        (get_or_create_calibration db pid).2.calibrations =
          db.calibrations ++
            [⟨db.calibrations.length + 1, pid, ConfidenceLevel.LOW, true, false,
              ["Project not found"], 0, 0, 0, 0⟩]) := by
  refine ⟨calculate_confidence_not_found db pid hfind, ?_⟩
  intro hno
  unfold get_or_create_calibration
  rw [calculate_confidence_not_found db pid hfind, hno]

/-- Claim C9 witness: the amended theorem applied to the empty store. -/
theorem c9_amended_witness :
    calculate_confidence ({} : Db) 1 =
        ⟨ConfidenceLevel.LOW, true, false, ["Project not found"], 0,
          NoveltyRiskLevel.UNKNOWN, 0, 0, 0⟩ ∧
      (get_or_create_calibration ({} : Db) 1).2.calibrations =
        [⟨1, 1, ConfidenceLevel.LOW, true, false, ["Project not found"], 0, 0, 0, 0⟩] := by
  have h := c9_amended ({} : Db) 1 rfl
  exact ⟨h.1, h.2 rfl⟩

/-- Claim C10 (confirmed): with `audit_logs_enabled = False`, `log_action`
returns `True` for every input — the action type is not even validated —
while writing no `AuditLog` row, so a `True` result does not imply a
persisted audit record. -/
theorem c10_audit_disabled (settings : Settings) (db : Db)
    (action_type entity_type : String) (entity_id : Option Int)
    (user_id metadata : Option String)
    (hdis : settings.audit_logs_enabled = false) :
    log_action settings db action_type entity_type entity_id user_id metadata = (true, db) := by
  unfold log_action
  simp [hdis]

/-- Claim C10 witness: the theorem applied to audit-disabled settings and
a string outside the `ActionType` enumeration. -/
theorem c10_witness :
    settingsAuditOff.audit_logs_enabled = false ∧
      ActionType.ofString? "NOT_AN_ACTION_TYPE" = none ∧
      log_action settingsAuditOff ({} : Db) "NOT_AN_ACTION_TYPE" "Project" none none none =
        (true, ({} : Db)) :=
  ⟨rfl, rfl,
    c10_audit_disabled settingsAuditOff ({} : Db) "NOT_AN_ACTION_TYPE" "Project" none none none rfl⟩

end Inventix
